import Mathlib

/-!
Shallow embedding of the Game-of-Life core in `src/life/World.py`.

The dense `World` stores a 2D list of cells.  Validation
(`World.__validate_state`) operates on arbitrary Python values, so raw
input cells are modelled by `PyVal` (a boolean, or some non-boolean
Python value such as an `int` or `None`).  The transition engine only
ever runs on validated all-boolean states, so the dynamics
(`next_state`, `get_dimensions`, …) are modelled on `Grid`, 2D lists of
`Bool`.  Python list indexing can raise `IndexError`; `pyGet` and the
`…E` variants model that raising semantics with `Option`, while the
plain variants are the total functions the raising ones are proved to
agree with on well-formed input.
-/

namespace Life

/-- Model of a Python value stored in a raw candidate state: either a
`bool`, or a non-boolean value (an `int`, or `None`). -/
inductive PyVal where
| pyBool (b : Bool)
| pyInt (n : Int)
| pyNone
deriving DecidableEq, Repr

/-- The Python `type(cell) is bool` test (note `type(1) is bool` is false
even though `1 == True` in Python). -/
def PyVal.isBool : PyVal → Bool
| .pyBool _ => true
| _ => false

/-- Error classes raised by `World.__validate_state`: `TypeError` for a
non-boolean cell, `ValueError` for a jagged state. -/
inductive PyError where
| typeError
| valueError
deriving DecidableEq, Repr

/-- Inner loop of `World.__validate_state` over one row: each cell
increments `row_length` and raises `TypeError` at the first non-`bool`;
on success the length of the row is returned. -/
def checkRow : List PyVal → Except PyError Nat
| [] => .ok 0
| cell :: rest =>
  if cell.isBool then (checkRow rest).map (· + 1) else .error .typeError

/-- Outer loop of `World.__validate_state`: `rowLengths` models the
`row_lengths` set accumulated so far (as a duplicate-free list).  After
scanning a row for non-booleans, a `ValueError` is raised when the set
is non-empty and does not contain the length of the row; otherwise the
length is added and the loop continues. -/
def validateLoop (rowLengths : List Nat) : List (List PyVal) → Except PyError Unit
| [] => .ok ()
| row :: rest =>
  match checkRow row with
  | .error e => .error e
  | .ok n =>
    if !rowLengths.isEmpty && !rowLengths.contains n then .error .valueError
    else validateLoop (if rowLengths.contains n then rowLengths else n :: rowLengths) rest

/-- `World.__validate_state`: raises `TypeError` if the state contains a
non-bool, `ValueError` if the state is a jagged array. -/
def validate_state (state : List (List PyVal)) : Except PyError Unit :=
  validateLoop [] state

/-- `World.__init__`: validates the initial state then stores it
unchanged; the constructed world is identified with its stored state. -/
def construct (initial_state : List (List PyVal)) : Except PyError (List (List PyVal)) :=
  (validate_state initial_state).map fun _ => initial_state

/-- `World.get_state`: returns the stored state. -/
def get_state (world : List (List PyVal)) : List (List PyVal) :=
  world

/-- The (claim-level) property that a raw state has all rows of equal
length (non-jagged). -/
def rectangularP (state : List (List PyVal)) : Bool :=
  state.all fun row => row.length == state.headI.length

/-- The (claim-level) property that every cell of a raw state is a
boolean. -/
def allBoolP (state : List (List PyVal)) : Bool :=
  state.all fun row => row.all PyVal.isBool

/-- A validated dense state: a 2D list of booleans. -/
abbrev Grid := List (List Bool)

/-- A `Grid` viewed as raw constructor input. -/
def rawOfGrid (s : Grid) : List (List PyVal) :=
  s.map fun row => row.map PyVal.pyBool

/-- Well-formedness of a dense state: all rows have equal length. -/
def rectangular (s : Grid) : Bool :=
  s.all fun row => row.length == s.headI.length

/-- `World.get_dimensions`: `(0, 0)` for an empty (falsy) state,
otherwise `(len(state[0]), len(state))`, i.e. `(length, width)` =
`(number of columns, number of rows)`. -/
def get_dimensions (s : Grid) : Nat × Nat :=
  if s.isEmpty then (0, 0) else (s.headI.length, s.length)

/-- `World.__is_valid_coordinate`: bounds check against
`0 ≤ row ≤ width - 1` and `0 ≤ col ≤ length - 1` (Python integers, so
the subtraction is over `Int`). -/
def is_valid_coordinate (s : Grid) (r c : Int) : Bool :=
  let d := get_dimensions s
  (decide (0 ≤ r) && decide (r ≤ (d.2 : Int) - 1)) &&
    (decide (0 ≤ c) && decide (c ≤ (d.1 : Int) - 1))

/-- `World.__get_cell` as the total function used on validated
coordinates (`__is_valid_coordinate` guarantees both indices are
in range, so defaulting never actually fires there). -/
def get_cell (s : Grid) (r c : Int) : Bool :=
  (s.getD r.toNat []).getD c.toNat false

/-- The `offsets = range(-1, 2)` of `World.__live_neighbour_count`. -/
def offsets : List Int := [-1, 0, 1]

/-- `World.__live_neighbour_count`: the comprehension collects
`__get_cell` over all offset pairs that are not `(0, 0)` and pass the
`__is_valid_coordinate` check, and `sum` of Python booleans counts the
`True`s. -/
def live_neighbour_count (s : Grid) (r c : Int) : Nat :=
  (((offsets.flatMap fun ro => offsets.map fun co => (ro, co)).filter
      fun p => !(p.1 == 0 && p.2 == 0) &&
        is_valid_coordinate s (r + p.1) (c + p.2)).map
    fun p => get_cell s (r + p.1) (c + p.2)).count true

/-- `World.__next_cell`: survival with 2 or 3 live neighbours, birth
with exactly 3. -/
def next_cell (s : Grid) (r c : Int) (is_live : Bool) : Bool :=
  let n := live_neighbour_count s r c
  (is_live && (n == 2 || n == 3)) || (!is_live && (n == 3))

/-- `World.next_state`: the nested comprehension over
`enumerate(self.state)` and `enumerate(row)`, building the next grid
from the (unmodified) current one. -/
def next_state (s : Grid) : Grid :=
  s.enum.map fun p => p.2.enum.map fun q => next_cell s p.1 q.1 q.2

/-- Python list indexing `xs[i]`: negative indices count from the end,
and an index out of range raises (`none`). -/
def pyGet {α : Type} (xs : List α) (i : Int) : Option α :=
  if 0 ≤ i then xs.get? i.toNat
  else if 0 ≤ i + xs.length then xs.get? (i + xs.length).toNat
  else none

/-- `World.__get_cell` with the Python raising indexing semantics:
`self.state[row_index][col_index]`. -/
def get_cellE (s : Grid) (r c : Int) : Option Bool := do
  let row ← pyGet s r
  pyGet row c

/-- `World.__live_neighbour_count` with raising indexing: each cell
lookup in the comprehension may raise, and any raise aborts the whole
computation. -/
def live_neighbour_countE (s : Grid) (r c : Int) : Option Nat := do
  let cells ← ((offsets.flatMap fun ro => offsets.map fun co => (ro, co)).filter
      fun p => !(p.1 == 0 && p.2 == 0) &&
        is_valid_coordinate s (r + p.1) (c + p.2)).mapM
    fun p => get_cellE s (r + p.1) (c + p.2)
  return cells.count true

/-- `World.__next_cell` with raising indexing semantics. -/
def next_cellE (s : Grid) (r c : Int) (is_live : Bool) : Option Bool := do
  let n ← live_neighbour_countE s r c
  return (is_live && (n == 2 || n == 3)) || (!is_live && (n == 3))

/-- `World.next_state` with raising indexing semantics. -/
def next_stateE (s : Grid) : Option Grid :=
  s.enum.mapM fun p => p.2.enum.mapM fun q => next_cellE s p.1 q.1 q.2

/-- Modelled from the spec: the cell value at a coordinate, with "any
neighbour coordinate outside the grid counts as dead". -/
def spec_cell (s : Grid) (r c : Int) : Bool :=
  if 0 ≤ r && 0 ≤ c then (s.getD r.toNat []).getD c.toNat false else false

/-- Modelled from the spec: the 8 neighbour offsets, the elements of
`{-1,0,1} × {-1,0,1}` minus `(0,0)`. -/
def spec_offsets : List (Int × Int) :=
  [(-1, -1), (-1, 0), (-1, 1), (0, -1), (0, 1), (1, -1), (1, 0), (1, 1)]

/-- Modelled from the spec: the number of live cells among the 8
neighbours, out-of-grid neighbours counting as dead. -/
def spec_neighbour_count (s : Grid) (r c : Int) : Nat :=
  (spec_offsets.map fun p => spec_cell s (r + p.1) (c + p.2)).count true

/-- The list of coordinates of live cells of a grid, row-major. -/
def live_coords (s : Grid) : List (Nat × Nat) :=
  s.enum.flatMap fun p =>
    (p.2.enum.filter fun q => q.2).map fun q => (p.1, q.1)

/-- The 5×5 vertical blinker: live cells exactly (1,2), (2,2), (3,2). -/
def blinkerV : Grid :=
  [[false, false, false, false, false],
   [false, false, true,  false, false],
   [false, false, true,  false, false],
   [false, false, true,  false, false],
   [false, false, false, false, false]]

/-- The 5×5 horizontal blinker: live cells exactly (2,1), (2,2), (2,3). -/
def blinkerH : Grid :=
  [[false, false, false, false, false],
   [false, false, false, false, false],
   [false, true,  true,  true,  false],
   [false, false, false, false, false],
   [false, false, false, false, false]]

/-- The 4×4 still-life block: live cells exactly (1,1), (1,2), (2,1), (2,2). -/
def block : Grid :=
  [[false, false, false, false],
   [false, true,  true,  false],
   [false, true,  true,  false],
   [false, false, false, false]]

end Life
namespace Life

theorem checkRow_eq (row : List PyVal) :
    checkRow row = if row.all PyVal.isBool then .ok row.length else .error .typeError := by
  induction row with
  | nil => rfl
  | cons cell rest ih =>
    simp only [checkRow, List.all_cons, List.length_cons, ih]
    cases h : cell.isBool <;> cases h2 : rest.all PyVal.isBool <;> simp [Except.map]

theorem validateLoop_cons_nonbool (acc : List Nat) (row : List PyVal)
    (rest : List (List PyVal)) (hb : row.all PyVal.isBool = false) :
    validateLoop acc (row :: rest) = .error .typeError := by
  simp only [validateLoop, checkRow_eq, hb, Bool.false_eq_true, if_false]

theorem validateLoop_cons_singleton (n : Nat) (row : List PyVal)
    (rest : List (List PyVal)) (hb : row.all PyVal.isBool = true) :
    validateLoop [n] (row :: rest) =
      if row.length = n then validateLoop [n] rest else .error .valueError := by
  simp only [validateLoop, checkRow_eq, hb, if_true]
  by_cases hl : row.length = n <;> simp [hl]

theorem validateLoop_cons_nilacc (row : List PyVal) (rest : List (List PyVal))
    (hb : row.all PyVal.isBool = true) :
    validateLoop [] (row :: rest) = validateLoop [row.length] rest := by
  simp only [validateLoop, checkRow_eq, hb, if_true]
  simp

theorem validateLoop_ok_iff (rows : List (List PyVal)) (n : Nat) :
    validateLoop [n] rows = .ok () ↔
      ∀ row ∈ rows, row.all PyVal.isBool = true ∧ row.length = n := by
  induction rows with
  | nil => simp [validateLoop]
  | cons row rest ih =>
    cases hb : row.all PyVal.isBool
    · rw [validateLoop_cons_nonbool _ _ _ hb]
      constructor
      · intro h; exact Except.noConfusion h
      · intro h
        obtain ⟨h1, -⟩ := h row (List.mem_cons_self _ _)
        rw [h1] at hb; exact absurd hb (by decide)
    · rw [validateLoop_cons_singleton _ _ _ hb]
      by_cases hl : row.length = n
      · rw [if_pos hl, ih]
        constructor
        · intro h r hr
          rcases List.mem_cons.mp hr with h1 | h1
          · exact h1 ▸ ⟨hb, hl⟩
          · exact h r h1
        · intro h r hr; exact h r (List.mem_cons_of_mem _ hr)
      · rw [if_neg hl]
        constructor
        · intro h; exact Except.noConfusion h
        · intro h; exact absurd (h row (List.mem_cons_self _ _)).2 hl

theorem validateLoop_no_valueError (rows : List (List PyVal)) (n : Nat)
    (h : ∀ row ∈ rows, row.length = n) :
    validateLoop [n] rows ≠ .error .valueError := by
  induction rows with
  | nil => simp [validateLoop]
  | cons row rest ih =>
    cases hb : row.all PyVal.isBool
    · rw [validateLoop_cons_nonbool _ _ _ hb]; intro hc
      exact PyError.noConfusion (Except.error.inj hc)
    · rw [validateLoop_cons_singleton _ _ _ hb, if_pos (h row (List.mem_cons_self _ _))]
      exact ih fun r hr => h r (List.mem_cons_of_mem _ hr)

theorem validateLoop_no_typeError (rows : List (List PyVal)) (acc : List Nat)
    (h : ∀ row ∈ rows, row.all PyVal.isBool = true) :
    validateLoop acc rows ≠ .error .typeError := by
  induction rows generalizing acc with
  | nil => simp [validateLoop]
  | cons row rest ih =>
    simp only [validateLoop, checkRow_eq, h row (List.mem_cons_self _ _), if_true]
    split
    · intro hc; exact PyError.noConfusion (Except.error.inj hc)
    · exact ih _ fun r hr => h r (List.mem_cons_of_mem _ hr)

theorem validate_ok_iff (g : List (List PyVal)) :
    validate_state g = .ok () ↔ (rectangularP g = true ∧ allBoolP g = true) := by
  cases g with
  | nil => simp [validate_state, validateLoop, rectangularP, allBoolP]
  | cons row rest =>
    cases hb : row.all PyVal.isBool
    · rw [validate_state, validateLoop_cons_nonbool _ _ _ hb]
      constructor
      · intro h; exact Except.noConfusion h
      · rintro ⟨-, h2⟩
        rw [allBoolP, List.all_cons, hb] at h2
        simp at h2
    · rw [validate_state, validateLoop_cons_nilacc _ _ hb, validateLoop_ok_iff]
      simp only [rectangularP, allBoolP, List.headI, List.all_cons, hb, beq_self_eq_true,
        Bool.true_and, List.all_eq_true, beq_iff_eq]
      constructor
      · intro h
        exact ⟨fun r hr => (h r hr).2, fun r hr => (h r hr).1⟩
      · rintro ⟨h1, h2⟩ r hr
        exact ⟨h2 r hr, h1 r hr⟩

end Life
namespace Life

instance {e a : Type} [DecidableEq e] [DecidableEq a] : DecidableEq (Except e a)
| .ok x, .ok y =>
  if h : x = y then .isTrue (by rw [h]) else .isFalse fun hc => h (Except.ok.inj hc)
| .ok _, .error _ => .isFalse fun hc => Except.noConfusion hc
| .error _, .ok _ => .isFalse fun hc => Except.noConfusion hc
| .error x, .error y =>
  if h : x = y then .isTrue (by rw [h]) else .isFalse fun hc => h (Except.error.inj hc)

theorem validate_no_typeError (g : List (List PyVal)) (h : allBoolP g = true) :
    validate_state g ≠ .error .typeError := by
  rw [allBoolP, List.all_eq_true] at h
  exact validateLoop_no_typeError g [] fun r hr => h r hr

theorem validate_no_valueError (g : List (List PyVal)) (h : rectangularP g = true) :
    validate_state g ≠ .error .valueError := by
  cases g with
  | nil => intro hc; exact Except.noConfusion hc
  | cons row rest =>
    rw [rectangularP, List.all_eq_true] at h
    cases hb : row.all PyVal.isBool
    · rw [validate_state, validateLoop_cons_nonbool _ _ _ hb]
      intro hc; exact PyError.noConfusion (Except.error.inj hc)
    · rw [validate_state, validateLoop_cons_nilacc _ _ hb]
      exact validateLoop_no_valueError rest row.length fun r hr =>
        beq_iff_eq.mp (h r (List.mem_cons_of_mem _ hr))

theorem construct_eq_ok (g : List (List PyVal)) (h1 : rectangularP g = true)
    (h2 : allBoolP g = true) : construct g = .ok g := by
  rw [construct, (validate_ok_iff g).mpr ⟨h1, h2⟩]
  rfl

/-- C3 counterexample: a jagged state whose first cell is the integer
`1` is rejected with `TypeError`, not `ValueError`. -/
theorem c3_counterexample :
    rectangularP [[PyVal.pyInt 1], [PyVal.pyBool true, PyVal.pyBool true]] = false ∧
      construct [[PyVal.pyInt 1], [PyVal.pyBool true, PyVal.pyBool true]] =
        .error .typeError ∧
      construct [[PyVal.pyInt 1], [PyVal.pyBool true, PyVal.pyBool true]] ≠
        .error .valueError := by
  decide

/-- C3 (amended): every jagged input all of whose cells are booleans is
rejected with `ValueError`. -/
theorem c3_amended_jagged_valueError (g : List (List PyVal))
    (hb : allBoolP g = true) (hj : rectangularP g = false) :
    construct g = .error .valueError := by
  rw [construct]
  rcases hv : validate_state g with e | u
  · cases e with
    | typeError => exact absurd hv (validate_no_typeError g hb)
    | valueError => rfl
  · have := (validate_ok_iff g).mp (by rw [hv])
    rw [this.1] at hj
    exact absurd hj (by decide)

/-- C3 witness: a concrete all-boolean jagged grid is rejected with
`ValueError`. -/
theorem c3_witness :
    allBoolP [[PyVal.pyBool true], [PyVal.pyBool true, PyVal.pyBool false]] = true ∧
      rectangularP [[PyVal.pyBool true], [PyVal.pyBool true, PyVal.pyBool false]] = false ∧
      construct [[PyVal.pyBool true], [PyVal.pyBool true, PyVal.pyBool false]] =
        .error .valueError :=
  ⟨by decide, by decide, c3_amended_jagged_valueError _ (by decide) (by decide)⟩

/-- C4 counterexample: a state whose third row holds the non-boolean
`1`, but whose second row is empty, is rejected with `ValueError`
(the jaggedness check fires before the non-boolean is reached), not
`TypeError`. -/
theorem c4_counterexample :
    allBoolP [[PyVal.pyBool true], [], [PyVal.pyInt 1]] = false ∧
      construct [[PyVal.pyBool true], [], [PyVal.pyInt 1]] = .error .valueError ∧
      construct [[PyVal.pyBool true], [], [PyVal.pyInt 1]] ≠ .error .typeError := by
  decide

/-- C4 (amended): every rectangular (non-jagged) input containing a
non-boolean cell is rejected with `TypeError`. -/
theorem c4_amended_nonbool_typeError (g : List (List PyVal))
    (hr : rectangularP g = true) (hb : allBoolP g = false) :
    construct g = .error .typeError := by
  rw [construct]
  rcases hv : validate_state g with e | u
  · cases e with
    | typeError => rfl
    | valueError => exact absurd hv (validate_no_valueError g hr)
  · have := (validate_ok_iff g).mp (by rw [hv])
    rw [this.2] at hb
    exact absurd hb (by decide)

/-- C4 witness: a concrete rectangular grid holding the integer `1` is
rejected with `TypeError`. -/
theorem c4_witness :
    rectangularP [[PyVal.pyBool true], [PyVal.pyInt 1]] = true ∧
      allBoolP [[PyVal.pyBool true], [PyVal.pyInt 1]] = false ∧
      construct [[PyVal.pyBool true], [PyVal.pyInt 1]] = .error .typeError :=
  ⟨by decide, by decide, c4_amended_nonbool_typeError _ (by decide) (by decide)⟩

/-- C10: construction succeeds exactly on the rectangular all-boolean
inputs (the empty grid and all-empty-rows grids included), and then
returns the input unchanged. -/
theorem c10_construct_ok_iff (g : List (List PyVal)) :
    (∃ w, construct g = .ok w) ↔ (rectangularP g = true ∧ allBoolP g = true) := by
  constructor
  · rintro ⟨w, hw⟩
    rcases hv : validate_state g with e | u
    · rw [construct, hv] at hw; exact Except.noConfusion hw
    · exact (validate_ok_iff g).mp (by rw [hv])
  · rintro ⟨h1, h2⟩
    exact ⟨g, construct_eq_ok g h1 h2⟩

/-- C7: constructing a world from a valid raw grid and reading its
state back returns the raw grid unchanged. -/
theorem c7_roundtrip (raw : List (List PyVal)) (h1 : rectangularP raw = true)
    (h2 : allBoolP raw = true) : (construct raw).map get_state = .ok raw := by
  rw [construct_eq_ok raw h1 h2]
  rfl

/-- C7 witness: round-trip at a concrete valid grid. -/
theorem c7_witness :
    rectangularP [[PyVal.pyBool true, PyVal.pyBool false]] = true ∧
      allBoolP [[PyVal.pyBool true, PyVal.pyBool false]] = true ∧
      (construct [[PyVal.pyBool true, PyVal.pyBool false]]).map get_state =
        .ok [[PyVal.pyBool true, PyVal.pyBool false]] :=
  ⟨by decide, by decide, c7_roundtrip _ (by decide) (by decide)⟩

end Life
namespace Life

theorem is_valid_iff (s : Grid) (r c : Int) :
    is_valid_coordinate s r c = true ↔
      0 ≤ r ∧ r < (s.length : Int) ∧ 0 ≤ c ∧ c < (s.headI.length : Int) := by
  cases s with
  | nil =>
    simp only [is_valid_coordinate, get_dimensions, List.isEmpty_nil, if_true,
      List.length_nil, List.headI, Bool.and_eq_true, decide_eq_true_eq]
    omega
  | cons row rest =>
    simp only [is_valid_coordinate, get_dimensions, List.isEmpty_cons,
      Bool.false_eq_true, if_false, List.length_cons, List.headI,
      Bool.and_eq_true, decide_eq_true_eq]
    omega

theorem rect_row_length (s : Grid) (h : rectangular s = true) {row : List Bool}
    (hrow : row ∈ s) : row.length = s.headI.length := by
  rw [rectangular, List.all_eq_true] at h
  exact beq_iff_eq.mp (h row hrow)

theorem getD_in_range {α : Type} (l : List α) (d : α) (i : Nat) (hi : i < l.length) :
    l.get? i = some (l.getD i d) := by
  rw [List.getD_eq_getElem?_getD, List.get?_eq_getElem?, List.getElem?_eq_getElem hi]
  rfl

theorem getD_mem (s : Grid) (i : Nat) (hi : i < s.length) : s.getD i [] ∈ s :=
  List.get?_mem (getD_in_range s [] i hi)

theorem get_cellE_valid (s : Grid) (h : rectangular s = true) (r c : Int)
    (hv : is_valid_coordinate s r c = true) :
    get_cellE s r c = some (get_cell s r c) := by
  obtain ⟨hr0, hr1, hc0, hc1⟩ := (is_valid_iff s r c).mp hv
  have hrn : r.toNat < s.length := by omega
  have hrow := getD_in_range s [] r.toNat hrn
  have hlen : (s.getD r.toNat []).length = s.headI.length :=
    rect_row_length s h (getD_mem s r.toNat hrn)
  have hcn : c.toNat < (s.getD r.toNat []).length := by omega
  rw [get_cellE, pyGet, if_pos hr0, hrow]
  show pyGet (s.getD r.toNat []) c = _
  rw [pyGet, if_pos hc0, getD_in_range _ false c.toNat hcn]
  rfl

theorem mapM_some {α β : Type} (l : List α) (f : α → Option β) (g2 : α → β)
    (h : ∀ a ∈ l, f a = some (g2 a)) : l.mapM f = some (l.map g2) := by
  induction l with
  | nil => rfl
  | cons a rest ih =>
    rw [List.mapM_cons, h a (List.mem_cons_self _ _),
      ih fun x hx => h x (List.mem_cons_of_mem _ hx)]
    rfl

theorem live_neighbour_countE_some (s : Grid) (h : rectangular s = true) (r c : Int) :
    live_neighbour_countE s r c = some (live_neighbour_count s r c) := by
  rw [live_neighbour_countE, live_neighbour_count]
  rw [mapM_some _ _ (fun p => get_cell s (r + p.1) (c + p.2)) ?_]
  · rfl
  · intro p hp
    have := List.of_mem_filter hp
    rw [Bool.and_eq_true] at this
    exact get_cellE_valid s h _ _ this.2

theorem next_cellE_some (s : Grid) (h : rectangular s = true) (r c : Int) (b : Bool) :
    next_cellE s r c b = some (next_cell s r c b) := by
  rw [next_cellE, live_neighbour_countE_some s h]
  rfl

theorem next_stateE_some (s : Grid) (h : rectangular s = true) :
    next_stateE s = some (next_state s) := by
  rw [next_stateE, next_state]
  exact mapM_some _ _ _ fun p _ =>
    mapM_some _ _ _ fun q _ => next_cellE_some s h p.1 q.1 q.2

end Life
namespace Life

theorem cell_valid_eq (s : Grid) (h : rectangular s = true) (r c : Int) :
    (is_valid_coordinate s r c && get_cell s r c) = spec_cell s r c := by
  by_cases hv : is_valid_coordinate s r c = true
  · obtain ⟨hr0, hr1, hc0, hc1⟩ := (is_valid_iff s r c).mp hv
    rw [hv, Bool.true_and, spec_cell, if_pos]
    · rfl
    · simp [hr0, hc0]
  · rw [Bool.not_eq_true] at hv
    rw [hv, Bool.false_and, spec_cell]
    by_cases hg : (decide (0 ≤ r) && decide (0 ≤ c)) = true
    · rw [if_pos hg]
      rw [Bool.and_eq_true, decide_eq_true_eq, decide_eq_true_eq] at hg
      obtain ⟨hr0, hc0⟩ := hg
      have hnv := (is_valid_iff s r c).not.mp (by rw [hv]; exact Bool.false_ne_true)
      push_neg at hnv
      by_cases hr1 : (r : Int) < s.length
      · have hc1 : ¬ c < (s.headI.length : Int) := by
          intro hc1; exact absurd (hnv hr0 hr1 hc0) (by omega)
        have hrn : r.toNat < s.length := by omega
        have hlen : (s.getD r.toNat []).length = s.headI.length :=
          rect_row_length s h (getD_mem s r.toNat hrn)
        rw [List.getD_eq_default _ _ (by omega : (s.getD r.toNat []).length ≤ c.toNat)]
      · have hrn : s.length ≤ r.toNat := by omega
        rw [List.getD_eq_default _ _ hrn]
        rfl
    · rw [if_neg hg]

theorem count_true_filter_map {α : Type} (l : List α) (q : α → Bool) (f : α → Bool) :
    ((l.filter q).map f).count true = (l.map fun a => q a && f a).count true := by
  induction l with
  | nil => rfl
  | cons a rest ih =>
    cases hq : q a <;>
      simp [List.filter_cons, hq, List.count_cons, ih]

theorem live_neighbour_count_eq_spec (s : Grid) (h : rectangular s = true) (r c : Int) :
    live_neighbour_count s r c = spec_neighbour_count s r c := by
  rw [live_neighbour_count, count_true_filter_map]
  have hcell : ∀ a b : Int,
      (is_valid_coordinate s (r + a) (c + b) && get_cell s (r + a) (c + b)) =
        spec_cell s (r + a) (c + b) := fun a b => cell_valid_eq s h _ _
  simp only [Bool.and_assoc, hcell, spec_neighbour_count, spec_offsets, offsets]
  simp [List.count_cons]

end Life
namespace Life

theorem next_state_get? (s : Grid) (i : Nat) :
    (next_state s).get? i =
      (s.get? i).map fun row => row.enum.map fun q => next_cell s i q.1 q.2 := by
  rw [next_state, List.get?_map, List.get?_enum]
  cases s.get? i <;> rfl

theorem next_state_entry (s : Grid) (i j : Nat) (hi : i < s.length)
    (hj : j < (s.getD i []).length) :
    ((next_state s).getD i []).getD j false =
      next_cell s i j ((s.getD i []).getD j false) := by
  have h1 : (next_state s).getD i [] =
      (s.getD i []).enum.map fun q => next_cell s i q.1 q.2 := by
    have h2 := next_state_get? s i
    rw [getD_in_range s [] i hi] at h2
    have h3 : i < (next_state s).length := by
      rw [next_state, List.length_map, List.enum_length]; exact hi
    rw [getD_in_range _ [] i h3] at h2
    exact Option.some.inj h2
  rw [h1]
  have h4 : ((s.getD i []).enum.map fun q => next_cell s i q.1 q.2).get? j =
      some (next_cell s i j ((s.getD i []).getD j false)) := by
    rw [List.get?_map, List.get?_enum, getD_in_range _ false j hj]
    rfl
  rw [List.getD_eq_getElem?_getD, ← List.get?_eq_getElem?, h4]
  rfl

theorem spec_cell_nat (s : Grid) (i j : Nat) :
    spec_cell s i j = (s.getD i []).getD j false := by
  rw [spec_cell, if_pos (by simp)]
  simp

/-- C1: for a well-formed dense state and a coordinate inside it, the
cell produced by `next_state` is live iff the old cell was live with
exactly 2 or 3 live neighbours, or dead with exactly 3, where
neighbours are the 8 offset cells and out-of-grid neighbours count as
dead. -/
theorem c1_next_state_conway (s : Grid) (h : rectangular s = true) (i j : Nat)
    (hi : i < s.length) (hj : j < s.headI.length) :
    ((next_state s).getD i []).getD j false = true ↔
      ((spec_cell s i j = true ∧
          (spec_neighbour_count s i j = 2 ∨ spec_neighbour_count s i j = 3)) ∨
        (spec_cell s i j = false ∧ spec_neighbour_count s i j = 3)) := by
  have hrow : (s.getD i []).length = s.headI.length :=
    rect_row_length s h (getD_mem s i hi)
  have hj' : j < (s.getD i []).length := by omega
  rw [next_state_entry s i j hi hj', next_cell, live_neighbour_count_eq_spec s h,
    ← spec_cell_nat s i j]
  cases hb : spec_cell s (i : Int) (j : Int) <;> simp [beq_iff_eq]

end Life
namespace Life

theorem next_state_length (s : Grid) : (next_state s).length = s.length := by
  rw [next_state, List.length_map, List.enum_length]

theorem next_state_headI (s : Grid) :
    (next_state s).headI.length = s.headI.length := by
  cases s with
  | nil => rfl
  | cons r rest =>
    rw [next_state, List.enum_cons]
    simp [List.enum_length]

theorem next_state_row_length (s : Grid) (i : Nat) :
    ((next_state s).getD i []).length = (s.getD i []).length := by
  by_cases hi : i < s.length
  · have h2 := next_state_get? s i
    rw [getD_in_range s [] i hi] at h2
    have h3 : i < (next_state s).length := by rw [next_state_length]; exact hi
    rw [getD_in_range _ [] i h3] at h2
    rw [Option.some.inj h2, List.length_map, List.enum_length]
  · rw [List.getD_eq_default _ _ (by rw [next_state_length]; omega),
      List.getD_eq_default _ _ (by omega)]

theorem rect_next_state (s : Grid) (h : rectangular s = true) :
    rectangular (next_state s) = true := by
  rw [rectangular, List.all_eq_true]
  intro row' hrow'
  rw [beq_iff_eq, next_state_headI]
  rw [next_state] at hrow'
  obtain ⟨p, hp, rfl⟩ := List.mem_map.mp hrow'
  rw [List.length_map, List.enum_length]
  exact rect_row_length s h (List.get?_mem (List.mem_enum_iff_get?.mp hp))

theorem dims_next_state (s : Grid) : get_dimensions (next_state s) = get_dimensions s := by
  cases s with
  | nil => rfl
  | cons r rest =>
    rw [get_dimensions, get_dimensions]
    have h1 : (next_state (r :: rest)).isEmpty = false := by
      rw [next_state, List.enum_cons]
      simp
    rw [h1, List.isEmpty_cons, if_neg (by simp), if_neg (by simp)]
    have h2 := next_state_headI (r :: rest)
    have h3 := next_state_length (r :: rest)
    rw [h2, h3]

end Life
namespace Life

/-- C1 witness: the rule instance at coordinate (2, 1) of the blinker,
which is born in the next generation. -/
theorem c1_witness :
    rectangular blinkerV = true ∧ 2 < blinkerV.length ∧ 1 < blinkerV.headI.length ∧
      (((next_state blinkerV).getD 2 []).getD 1 false = true ↔
        ((spec_cell blinkerV 2 1 = true ∧
            (spec_neighbour_count blinkerV 2 1 = 2 ∨
              spec_neighbour_count blinkerV 2 1 = 3)) ∨
          (spec_cell blinkerV 2 1 = false ∧ spec_neighbour_count blinkerV 2 1 = 3))) :=
  ⟨by decide, by decide, by decide,
    c1_next_state_conway blinkerV (by decide) 2 1 (by decide) (by decide)⟩

/-- C2: on a well-formed dense state the transition under the Python
raising indexing semantics never raises, and returns exactly the grid
computed by the total transition function. -/
theorem c2_next_state_total (s : Grid) (h : rectangular s = true) :
    next_stateE s = some (next_state s) :=
  next_stateE_some s h

/-- C2 witness: the raising-semantics transition succeeds on the
blinker. -/
theorem c2_witness :
    rectangular blinkerV = true ∧ next_stateE blinkerV = some (next_state blinkerV) :=
  ⟨by decide, c2_next_state_total blinkerV (by decide)⟩

/-- C5: `next_state` preserves the number of rows, the length of every row,
non-jaggedness, and the value of `get_dimensions`. -/
theorem c5_dimensions_preserved (s : Grid) (h : rectangular s = true) :
    (next_state s).length = s.length ∧
      (∀ i : Nat, ((next_state s).getD i []).length = (s.getD i []).length) ∧
      rectangular (next_state s) = true ∧
      get_dimensions (next_state s) = get_dimensions s :=
  ⟨next_state_length s, next_state_row_length s, rect_next_state s h,
    dims_next_state s⟩

/-- C5 witness: dimension preservation at the blinker. -/
theorem c5_witness :
    rectangular blinkerV = true ∧
      ((next_state blinkerV).length = blinkerV.length ∧
        (∀ i : Nat,
          ((next_state blinkerV).getD i []).length = (blinkerV.getD i []).length) ∧
        rectangular (next_state blinkerV) = true ∧
        get_dimensions (next_state blinkerV) = get_dimensions blinkerV) :=
  ⟨by decide, c5_dimensions_preserved blinkerV (by decide)⟩

/-- C6: `get_dimensions` returns `(number of columns, number of rows)`
for a well-formed dense state and `(0, 0)` for the empty state. -/
theorem c6_dimensions (s : Grid) (h : rectangular s = true) :
    (s = [] → get_dimensions s = (0, 0)) ∧
      (∀ row ∈ s, (get_dimensions s).1 = row.length) ∧
      (get_dimensions s).2 = s.length := by
  refine ⟨fun hs => by rw [hs]; rfl, fun row hrow => ?_, ?_⟩
  · cases s with
    | nil => cases hrow
    | cons r rest =>
      rw [get_dimensions, List.isEmpty_cons, if_neg (by simp)]
      exact (rect_row_length _ h hrow).symm
  · cases s with
    | nil => rfl
    | cons r rest => rw [get_dimensions, List.isEmpty_cons, if_neg (by simp)]

/-- C6 witness: dimensions of the 5×5 blinker grid and of the empty
grid. -/
theorem c6_witness :
    rectangular blinkerV = true ∧
      ((blinkerV = [] → get_dimensions blinkerV = (0, 0)) ∧
        (∀ row ∈ blinkerV, (get_dimensions blinkerV).1 = row.length) ∧
        (get_dimensions blinkerV).2 = blinkerV.length) :=
  ⟨by decide, c6_dimensions blinkerV (by decide)⟩

/-- C8: the blinker with live cells (1,2), (2,2), (3,2) transitions to
the grid with live cells (2,1), (2,2), (2,3) and back in the next
generation. -/
theorem c8_blinker_period_two :
    live_coords blinkerV = [(1, 2), (2, 2), (3, 2)] ∧
      next_state blinkerV = blinkerH ∧
      live_coords blinkerH = [(2, 1), (2, 2), (2, 3)] ∧
      next_state blinkerH = blinkerV := by
  decide

/-- C9: the 2×2 block with live cells (1,1), (1,2), (2,1), (2,2) is a
fixed point of `next_state`, hence invariant for 10 generations. -/
theorem c9_block_still_life :
    live_coords block = [(1, 1), (1, 2), (2, 1), (2, 2)] ∧
      next_state block = block ∧
      next_state^[10] block = block := by
  decide

end Life
